import Mathlib

/-!
Verification of the review-chart controller and view router of the
bitcoin-dashboard front end.

The JavaScript modules are shallowly embedded:

* `Date` values and timestamps become `Int` milliseconds since the Unix
  epoch (UTC); an ISO date string `"YYYY-MM-DD"` parses to the UTC
  midnight of that day, hence a multiple of 86400000 ms.
* numeric values become `ℚ`; a JavaScript division whose denominator is
  zero produces a non-finite number (NaN or ±Infinity), modelled as
  `none` by `jsDiv`.
* a thrown exception becomes `none` / `Except.error` in the result type.
* `null`/unset state fields become `none`; JavaScript truthiness of the
  guards is reproduced exactly (`0` and `""` are falsy).
-/

namespace BitcoinDashboard

/-- One sample of a loaded series: the module stores
`{x: new Date(p.date), y: p.value}` (gold/silver modules). `x` is the
timestamp in ms since epoch, `y` the numeric value. -/
structure Point where
  x : Int
  y : ℚ
deriving DecidableEq, Repr

/-- The mutable per-module state record `reviewGoldState` (the silver
module `reviewSilverState` is field-for-field identical). Date-input
strings `customStart`/`customEnd` are modelled already parsed to UTC
midnight ms; `none` stands for `null` or the falsy empty string. -/
structure GoldState where
  timeMode : String
  year : Option Int
  halvingCycle : Option String
  logScale : Bool
  customStart : Option Int
  customEnd : Option Int
deriving DecidableEq, Repr

/-- JavaScript truthiness of a number field (`null` and `0` are falsy). -/
def truthyInt : Option Int → Bool
  | none => false
  | some y => y != 0

/-- JavaScript truthiness of a string field (`null` and `""` are falsy). -/
def truthyStr : Option String → Bool
  | none => false
  | some s => s != ""

/-- Table `HALVING_RANGES` from the source, with the ISO date strings parsed to
UTC-midnight ms: 2009-01-03, 2012-11-28, 2016-07-09, 2020-05-11,
2024-04-20. A `null` end (`'2024_now'`) is `none`. -/
def HALVING_RANGES : List (String × Int × Option Int) :=
  [ ("2009_2012", (1230940800000, some 1354060800000)),
    ("2012_2016", (1354060800000, some 1468022400000)),
    ("2016_2020", (1468022400000, some 1589155200000)),
    ("2020_2024", (1589155200000, some 1713571200000)),
    ("2024_now",  (1713571200000, none)) ]

/-- JavaScript property access `HALVING_RANGES[id]`: `none` models the
`undefined` obtained for a key absent from the table. -/
def lookupRange (id : String) : Option (Int × Option Int) :=
  (HALVING_RANGES.find? (fun r => r.1 == id)).map (fun r => r.2)

/-- Helper `clampDateOrder` from the source. Its `if(!start||!end)` guard can
never fire inside `filterData`, where both arguments are `Date` objects
(always truthy), so the embedding takes the two parsed dates directly. -/
def clampDateOrder (start stop : Int) : Int × Int :=
  if start > stop then (stop, start) else (start, stop)

/-- Helper `diffYears` from the source: the ms difference divided by
`1000*60*60*24*365` (a 365-day year), as an exact rational. -/
def diffYears (start stop : Int) : ℚ :=
  ((stop - start : Int) : ℚ) / (1000 * 60 * 60 * 24 * 365)

/-- Embedding of `Date.prototype.getUTCFullYear` on a ms timestamp: the proleptic
Gregorian year of the UTC calendar day `⌊ms / 86400000⌋` (civil-from-days
computation). -/
def getUTCFullYear (ms : Int) : Int :=
  let z := ms.fdiv 86400000 + 719468
  let era := z.fdiv 146097
  let doe := (z - era * 146097).toNat
  let yoe := (doe - doe / 1460 + doe / 36524 - doe / 146096) / 365
  let y := (yoe : Int) + era * 400
  let doy := doe - (365 * yoe + yoe / 4 - yoe / 100)
  let mp := (5 * doy + 2) / 153
  let m := if mp < 10 then mp + 3 else mp - 9
  y + (if m ≤ 2 then 1 else 0)

/-- Guard of the `year` branch of `filterData`:
`timeMode==='year' && reviewGoldState.year`. -/
def yearGuard (st : GoldState) : Bool :=
  st.timeMode == "year" && truthyInt st.year

/-- Guard of the `halving` branch of `filterData`:
`timeMode==='halving' && reviewGoldState.halvingCycle`. -/
def halvingGuard (st : GoldState) : Bool :=
  st.timeMode == "halving" && truthyStr st.halvingCycle

/-- Guard of the `custom` branch of `filterData`:
`timeMode==='custom' && customStart && customEnd`. -/
def customGuard (st : GoldState) : Bool :=
  st.timeMode == "custom" && st.customStart.isSome && st.customEnd.isSome

/-- Function `filterData` of the gold module (the silver module's copy is
identical up to the state record's name). The three `if` blocks run in
sequence on `out`. In the halving branch, `const [s,e] =
HALVING_RANGES[cycle]` destructures `undefined` when the id is absent
from the table and throws a `TypeError`; the thrown case is the `none`
result. -/
def filterData (goldData : List Point) (st : GoldState) : Option (List Point) :=
  let out := goldData
  let out :=
    if yearGuard st then
      out.filter (fun p => getUTCFullYear p.x == st.year.getD 0)
    else out
  let afterHalving : Option (List Point) :=
    if halvingGuard st then
      match lookupRange (st.halvingCycle.getD "") with
      | none => none
      | some (s, e) =>
          some (out.filter (fun p =>
            decide (s ≤ p.x) &&
            (match e with
             | none => true
             | some stop => decide (p.x ≤ stop))))
    else some out
  afterHalving.map (fun out =>
    if customGuard st then
      match st.customStart, st.customEnd with
      | some s0, some e0 =>
          let se := clampDateOrder s0 e0
          let stop := se.2 + (86400000 - 1)
          out.filter (fun p => decide (se.1 ≤ p.x) && decide (p.x ≤ stop))
      | _, _ => out
    else out)

/-- Helper for stating C5: the UTC calendar day (days since epoch) a
timestamp falls on, `⌊ms / 86400000⌋`. -/
def dayOf (ms : Int) : Int :=
  ms.fdiv 86400000

/-- A ms timestamp lies in `[86400000*D, 86400000*D + 86399999]` exactly
when it falls on calendar day `D`. -/
theorem mem_day_interval (D x : Int) :
    (86400000 * D ≤ x ∧ x ≤ 86400000 * D + (86400000 - 1)) ↔ dayOf x = D := by
  unfold dayOf
  rw [Int.fdiv_eq_ediv _ (by norm_num)]
  omega

/-- Sanity: the year function agrees with the calendar on the halving
dates 2009-01-03 and 2024-04-20 and on 1969-12-31 (negative ms). -/
theorem getUTCFullYear_sanity :
    getUTCFullYear 1230940800000 = 2009 ∧
    getUTCFullYear 1713571200000 = 2024 ∧
    getUTCFullYear (-1) = 1969 := by
  refine ⟨?_, ?_, ?_⟩ <;> decide

/-- C4: `FilterEngine.apply` is the identity on the input sequence for
timeMode `all`, for `year` with the year unset, for `halving`
(namedRange) with the cycle id unset, and for `custom` with either bound
missing. -/
theorem filterData_identity_cases (series : List Point) (st : GoldState) :
    (st.timeMode = "all" → filterData series st = some series) ∧
    (st.timeMode = "year" → st.year = none → filterData series st = some series) ∧
    (st.timeMode = "halving" → st.halvingCycle = none →
      filterData series st = some series) ∧
    (st.timeMode = "custom" → (st.customStart = none ∨ st.customEnd = none) →
      filterData series st = some series) := by
  obtain ⟨tm, y, hc, ls, cs, ce⟩ := st
  refine ⟨?_, ?_, ?_, ?_⟩
  · rintro rfl; rfl
  · rintro rfl rfl; rfl
  · rintro rfl rfl; rfl
  · rintro rfl (rfl | rfl)
    · rfl
    · simp only [filterData, yearGuard, halvingGuard, customGuard, truthyInt, truthyStr]
      cases cs <;> rfl

/-- Witness for C4 at concrete inputs. -/
theorem filterData_identity_cases_witness :
    filterData [⟨0, 1⟩] ⟨"all", some 2020, some "2009_2012", true, some 0, some 0⟩
      = some [⟨0, 1⟩] ∧
    filterData [⟨0, 1⟩] ⟨"custom", none, none, true, some 0, none⟩
      = some [⟨0, 1⟩] :=
  ⟨(filterData_identity_cases [⟨0, 1⟩] _).1 rfl,
   (filterData_identity_cases [⟨0, 1⟩] _).2.2.2 rfl (Or.inr rfl)⟩

/-- Reduction lemma: in `custom` mode with both bounds set, `filterData` reduces to the
custom branch: year and halving guards are off, the bounds are
normalized by `clampDateOrder` and the end is extended to the last ms of
its day. Holds by unfolding the definitions. -/
theorem filterData_custom_eval (series : List Point) (a b : Int)
    (yr : Option Int) (hc : Option String) (ls : Bool) :
    filterData series ⟨"custom", yr, hc, ls, some a, some b⟩
      = some (series.filter (fun p =>
          decide ((clampDateOrder a b).1 ≤ p.x) &&
          decide (p.x ≤ (clampDateOrder a b).2 + (86400000 - 1)))) := rfl

/-- The custom-branch point predicate for a one-day window starting at
the midnight of day `D` holds exactly on the points of day `D`. -/
theorem day_filter_pred (D : Int) (p : Point) :
    (decide (86400000 * D ≤ p.x) &&
      decide (p.x ≤ 86400000 * D + (86400000 - 1))) = (dayOf p.x == D) := by
  rw [Bool.eq_iff_iff]
  simp only [Bool.and_eq_true, decide_eq_true_eq, beq_iff_eq]
  exact mem_day_interval D p.x

/-- C5: with `customStart = customEnd =` (the UTC midnight of) day `D`,
the custom filter keeps exactly the points whose timestamp falls on
calendar day `D` — end-of-day inclusivity, in particular not the empty
sequence when the day has points. -/
theorem filterData_single_day (series : List Point) (D : Int)
    (yr : Option Int) (hc : Option String) (ls : Bool) :
    filterData series ⟨"custom", yr, hc, ls, some (86400000 * D), some (86400000 * D)⟩
      = some (series.filter (fun p => dayOf p.x == D)) := by
  rw [filterData_custom_eval]
  have hclamp : clampDateOrder (86400000 * D) (86400000 * D)
      = (86400000 * D, 86400000 * D) := by
    simp [clampDateOrder]
  simp only [hclamp]
  exact congrArg some (List.filter_congr fun p _ => day_filter_pred D p)

/-- C6: the custom filter is invariant under swapping the two bounds. -/
theorem filterData_swap_bounds (series : List Point) (a b : Int)
    (yr : Option Int) (hc : Option String) (ls : Bool) :
    filterData series ⟨"custom", yr, hc, ls, some a, some b⟩
      = filterData series ⟨"custom", yr, hc, ls, some b, some a⟩ := by
  have hswap : clampDateOrder a b = clampDateOrder b a := by
    unfold clampDateOrder
    rcases lt_trichotomy a b with h | h | h
    · rw [if_neg (by omega), if_pos (by omega)]
    · subst h; rfl
    · rw [if_pos (by omega), if_neg (by omega)]
  rw [filterData_custom_eval, filterData_custom_eval, hswap]

/-- C2 counterexample: with a non-null cycle id absent from
`HALVING_RANGES`, `filterData` throws (destructuring `undefined`)
instead of returning the input unchanged. -/
theorem filterData_unknown_range_throws :
    filterData [] ⟨"halving", none, some "2099_2104", true, none, none⟩ = none ∧
    filterData [] ⟨"halving", none, some "2099_2104", true, none, none⟩
      ≠ some [] := by
  refine ⟨rfl, ?_⟩
  decide

/-- C2 amended: in halving (namedRange) mode, an unset (null or empty)
cycle id makes the filter behave as `all`, but a non-empty id absent
from `HALVING_RANGES` makes the filter fail (TypeError on destructuring
`undefined`) rather than behave as `all`. -/
theorem filterData_halving_unresolved (series : List Point) (st : GoldState)
    (htm : st.timeMode = "halving") :
    (st.halvingCycle = none → filterData series st = some series) ∧
    (st.halvingCycle = some "" → filterData series st = some series) ∧
    (∀ id, st.halvingCycle = some id → id ≠ "" → lookupRange id = none →
      filterData series st = none) := by
  obtain ⟨tm, y, hc, ls, cs, ce⟩ := st
  dsimp only at htm
  subst htm
  refine ⟨?_, ?_, ?_⟩
  · rintro rfl; rfl
  · rintro rfl; rfl
  · rintro id rfl hne hlook
    have hguard : halvingGuard ⟨"halving", y, some id, ls, cs, ce⟩ = true := by
      simp [halvingGuard, truthyStr, hne]
    simp only [filterData, hguard, if_true, Option.getD_some]
    simp [hlook]

/-- Witness for C2's amended theorem at concrete inputs. -/
theorem filterData_halving_unresolved_witness :
    filterData [⟨0, 1⟩] ⟨"halving", none, none, true, none, none⟩ = some [⟨0, 1⟩] ∧
    filterData [⟨0, 1⟩] ⟨"halving", none, some "nope", true, none, none⟩ = none :=
  ⟨(filterData_halving_unresolved [⟨0, 1⟩] _ rfl).1 rfl,
   (filterData_halving_unresolved [⟨0, 1⟩] _ rfl).2.2 "nope" rfl
     (by decide) (by decide)⟩

/-! ### SeriesStore: loadJSONL / ensureLoaded -/

/-- Function `loadJSONL` of the gold module, with the asynchronous retrieval made
explicit: `resOk` is `res.ok` of the fetch and `payload` is the outcome
of parsing the delivered text (`Except.error` when a line fails
`JSON.parse`, which throws for the whole payload). A non-success
response throws before parsing. -/
def loadJSONL (resOk : Bool) (payload : Except String (List Point)) :
    Except String (List Point) :=
  if !resOk then .error "fetch failed" else payload

/-- Function `ensureLoaded` of the gold module: `goldData` is the module-scoped
cache before the call; the result gives the cache after the call, the
outcome visible to the caller, and whether a retrieval was attempted.
The retrieval runs only when the cache is unpopulated, and a thrown
failure propagates leaving the cache unpopulated. -/
def ensureLoaded (goldData : Option (List Point)) (resOk : Bool)
    (payload : Except String (List Point)) :
    Option (List Point) × Except String (List Point) × Bool :=
  match goldData with
  | some d => (some d, .ok d, false)
  | none =>
    match loadJSONL resOk payload with
    | .ok d => (some d, .ok d, true)
    | .error e => (none, .error e, true)

/-- C3: series loading is idempotent per source — once the cache is
populated every later call returns the cached sequence with no new
retrieval; a successful retrieval populates the cache; a failed
retrieval (non-success response, or any thrown error) propagates,
leaves the cache unpopulated, and the next call attempts the retrieval
again. -/
theorem ensureLoaded_contract (d : List Point) (resOk : Bool)
    (payload : Except String (List Point)) (e : String) :
    ensureLoaded (some d) resOk payload = (some d, .ok d, false) ∧
    ensureLoaded none true (.ok d) = (some d, .ok d, true) ∧
    ensureLoaded none false payload = (none, .error "fetch failed", true) ∧
    ensureLoaded none true (.error e) = (none, .error e, true) ∧
    (ensureLoaded none resOk payload).2.2 = true := by
  refine ⟨rfl, rfl, rfl, rfl, ?_⟩
  unfold ensureLoaded
  cases loadJSONL resOk payload <;> rfl

/-! ### PerformanceAnnotator -/

/-- JavaScript division on finite numbers: `none` models the non-finite
result (NaN or ±Infinity) produced when the denominator is zero. -/
def jsDiv (x y : ℚ) : Option ℚ :=
  if y = 0 then none else some (x / y)

/-- Function `calculatePerformance` from the gold module: `null` (outer `none`)
on an empty or missing series, otherwise `((e − s) / s) * 100` computed
from the first and last element in index order; the inner `Option` is
`none` when the division is non-finite (first value 0). -/
def calculatePerformance (data : List Point) : Option (Option ℚ) :=
  match data with
  | [] => none
  | p :: rest =>
    let s := p.y
    let e := ((p :: rest).getLast?.getD p).y
    some ((jsDiv (e - s) s).map (fun q => q * 100))

/-- What the `performanceOverlay` plugin's `afterDraw` paints: the sign
prefix and the color keyed on `perf >= 0` (a NaN percentage compares
false, so it is drawn unsigned in the negative color). -/
structure OverlayText where
  plusSign : Bool
  green : Bool
deriving DecidableEq, Repr

/-- Embedding of `afterDraw` of the `performanceOverlayPlugin`: it re-derives the
filtered slice itself; outer `none` propagates a filter exception, the
middle `none` is the early return (empty slice or `perf === null`),
otherwise the drawn overlay. -/
def overlayDraw (goldData : List Point) (st : GoldState) :
    Option (Option OverlayText) :=
  (filterData goldData st).map (fun data =>
    if data.isEmpty then none
    else
      match calculatePerformance data with
      | none => none
      | some perf =>
        let nonneg :=
          match perf with
          | some q => decide (0 ≤ q)
          | none => false
        some ⟨nonneg, nonneg⟩)

/-- C7 counterexample: a single point whose value is 0 makes the
computation `(0 − 0) / 0`, a NaN in JavaScript — not the 0 the claim
requires for every single-point input. -/
theorem calculatePerformance_zero_value :
    calculatePerformance [⟨0, 0⟩] = some none ∧
    calculatePerformance [⟨0, 0⟩] ≠ some (some 0) := by
  refine ⟨rfl, ?_⟩
  decide

/-- C7 amended: the performance equals
`(last.value − first.value) / first.value × 100` in index order;
`[{value:100},{value:150}]` yields 50; a single-point input with
non-zero value yields 0 (with value 0 the division is NaN); on an empty
filtered slice the annotator draws nothing. -/
theorem calculatePerformance_contract :
    (calculatePerformance [] = none) ∧
    (∀ (p : Point) (rest : List Point),
      calculatePerformance (p :: rest)
        = some ((jsDiv ((((p :: rest).getLast?.getD p).y) - p.y) p.y).map
            (fun q => q * 100))) ∧
    (∀ t1 t2 : Int, calculatePerformance [⟨t1, 100⟩, ⟨t2, 150⟩] = some (some 50)) ∧
    (∀ (t : Int) (v : ℚ), v ≠ 0 → calculatePerformance [⟨t, v⟩] = some (some 0)) ∧
    (∀ (goldData : List Point) (st : GoldState),
      filterData goldData st = some [] → overlayDraw goldData st = some none) := by
  refine ⟨rfl, fun p rest => rfl, fun t1 t2 => ?_, fun t v hv => ?_, ?_⟩
  · show some ((jsDiv (150 - 100) 100).map (fun q => q * 100)) = some (some 50)
    norm_num [jsDiv]
  · show some ((jsDiv (v - v) v).map (fun q => q * 100)) = some (some 0)
    simp [jsDiv, hv]
  · intro goldData st hf
    simp [overlayDraw, hf]

/-- Witness for C7's amended theorem at concrete inputs. -/
theorem calculatePerformance_contract_witness :
    calculatePerformance [⟨0, 100⟩, ⟨1, 150⟩] = some (some 50) ∧
    calculatePerformance [⟨0, 100⟩] = some (some 0) ∧
    overlayDraw [] ⟨"all", none, none, true, none, none⟩ = some none :=
  ⟨calculatePerformance_contract.2.2.1 0 1,
   calculatePerformance_contract.2.2.2.1 0 100 (by norm_num),
   calculatePerformance_contract.2.2.2.2 [] _ rfl⟩

/-! ### AxisAdviser: getTimeScaleConfig -/

/-- The chart time-axis unit chosen by `getTimeScaleConfig`. -/
inductive TimeAxisUnit
  | month
  | quarter
  | year
deriving DecidableEq, Repr

/-- Which tick-label callback `getTimeScaleConfig` installs (`noLabel`
when the returned config has no `callback` key). `monthShort` is the
`{month:'short'}` formatter, `monthShortYY2` adds `year:'2-digit'`,
`quarterFullYear` is `"Q<n> <year>"`, `quarterYY2` is
`"Q<n> '<2-digit year>"`, `fullYear` is the 4-digit year. -/
inductive TickLabel
  | noLabel
  | quarterFullYear
  | monthShort
  | monthShortYY2
  | quarterYY2
  | fullYear
deriving DecidableEq, Repr

/-- The configuration record `getTimeScaleConfig` returns. -/
structure TimeCfg where
  unit : TimeAxisUnit
  callback : TickLabel
deriving DecidableEq, Repr

/-- Function `getTimeScaleConfig` of the gold module (the silver copy is
identical): empty data short-circuits to `{unit:'month'}` with no
callback; otherwise the unit and label depend on the time mode and, in
custom mode, on `diffYears` of the first and last (`data.at(-1)`)
timestamps of the already-filtered data. -/
def getTimeScaleConfig (data : List Point) (st : GoldState) : TimeCfg :=
  match data with
  | [] => ⟨.month, .noLabel⟩
  | p :: rest =>
    let start := p.x
    let stop := (((p :: rest).getLast?).getD p).x
    let years := diffYears start stop
    if st.timeMode == "all" then ⟨.quarter, .quarterFullYear⟩
    else if st.timeMode == "year" then ⟨.month, .monthShort⟩
    else if st.timeMode == "halving" then ⟨.month, .monthShortYY2⟩
    else if st.timeMode == "custom" then
      if years < 1 then ⟨.month, .monthShort⟩
      else if years < 5 then ⟨.quarter, .quarterYY2⟩
      else ⟨.year, .fullYear⟩
    else ⟨.month, .noLabel⟩

/-- C8: in custom mode the adviser picks the granularity from the span
(last − first timestamp) of the already-filtered series — month below 1
year, quarter from 1 up to (excluding) 5 years, year from 5 years — and
an empty filtered series gets month granularity with no custom label. -/
theorem getTimeScaleConfig_custom (st : GoldState) (htm : st.timeMode = "custom") :
    (getTimeScaleConfig [] st = ⟨.month, .noLabel⟩) ∧
    (∀ (p : Point) (rest : List Point),
      (diffYears p.x ((((p :: rest).getLast?).getD p).x) < 1 →
        getTimeScaleConfig (p :: rest) st = ⟨.month, .monthShort⟩) ∧
      (1 ≤ diffYears p.x ((((p :: rest).getLast?).getD p).x) →
        diffYears p.x ((((p :: rest).getLast?).getD p).x) < 5 →
        getTimeScaleConfig (p :: rest) st = ⟨.quarter, .quarterYY2⟩) ∧
      (5 ≤ diffYears p.x ((((p :: rest).getLast?).getD p).x) →
        getTimeScaleConfig (p :: rest) st = ⟨.year, .fullYear⟩)) := by
  obtain ⟨tm, y, hc, ls, cs, ce⟩ := st
  dsimp only at htm
  subst htm
  refine ⟨rfl, fun p rest => ⟨fun h1 => ?_, fun h1 h5 => ?_, fun h5 => ?_⟩⟩
  · show (if diffYears _ _ < 1 then _ else _) = _
    rw [if_pos h1]
  · show (if diffYears _ _ < 1 then _ else _) = _
    rw [if_neg (by linarith), if_pos h5]
  · show (if diffYears _ _ < 1 then _ else _) = _
    rw [if_neg (by linarith), if_neg (by linarith)]

/-- Witness for C8 at concrete inputs: a same-day pair (span 0), a
2-year pair, and a 6-year pair, plus the empty series. -/
theorem getTimeScaleConfig_custom_witness :
    getTimeScaleConfig [] ⟨"custom", none, none, true, none, none⟩
      = ⟨.month, .noLabel⟩ ∧
    getTimeScaleConfig [⟨0, 1⟩, ⟨1000, 2⟩] ⟨"custom", none, none, true, none, none⟩
      = ⟨.month, .monthShort⟩ ∧
    getTimeScaleConfig [⟨0, 1⟩, ⟨63072000000, 2⟩]
        ⟨"custom", none, none, true, none, none⟩
      = ⟨.quarter, .quarterYY2⟩ ∧
    getTimeScaleConfig [⟨0, 1⟩, ⟨189216000000, 2⟩]
        ⟨"custom", none, none, true, none, none⟩
      = ⟨.year, .fullYear⟩ :=
  ⟨(getTimeScaleConfig_custom _ rfl).1,
   ((getTimeScaleConfig_custom _ rfl).2 ⟨0, 1⟩ [⟨1000, 2⟩]).1
     (by norm_num [diffYears]),
   ((getTimeScaleConfig_custom _ rfl).2 ⟨0, 1⟩ [⟨63072000000, 2⟩]).2.1
     (by norm_num [diffYears]) (by norm_num [diffYears]),
   ((getTimeScaleConfig_custom _ rfl).2 ⟨0, 1⟩ [⟨189216000000, 2⟩]).2.2
     (by norm_num [diffYears])⟩

/-! ### The BTC-vs-fiat module -/

/-- One sample of a fiat series: the fiat module stores
`{date: new Date(p.date), value: p.value}`. -/
structure FPoint where
  date : Int
  value : ℚ
deriving DecidableEq, Repr

/-- State record `reviewChartState` of the BTC-vs-fiat module. Unlike the gold and
silver state records it carries no `customStart`/`customEnd` fields. -/
structure FiatState where
  assetClass : String
  fiat : String
  timeMode : String
  year : Option Int
  halvingCycle : Option String
  logScale : Bool
deriving DecidableEq, Repr

/-- Function `filterData(raw)` of the BTC-vs-fiat module: only the year and
halving branches exist; there is no custom branch. The halving branch
has the same `undefined`-destructuring throw as the gold module. -/
def filterDataFiat (raw : List FPoint) (st : FiatState) : Option (List FPoint) :=
  let out := raw
  let out :=
    if st.timeMode == "year" && truthyInt st.year then
      out.filter (fun p => getUTCFullYear p.date == st.year.getD 0)
    else out
  if st.timeMode == "halving" && truthyStr st.halvingCycle then
    match lookupRange (st.halvingCycle.getD "") with
    | none => none
    | some (s, e) =>
        some (out.filter (fun p =>
          decide (s ≤ p.date) &&
          (match e with
           | none => true
           | some stop => decide (p.date ≤ stop))))
  else some out

/-- C10: the BTC-vs-fiat filter has no custom branch — in timeMode
`custom` it returns the input unchanged whatever the rest of the state
holds (and `FiatState` itself carries no custom bounds). -/
theorem filterDataFiat_no_custom (raw : List FPoint) (st : FiatState)
    (htm : st.timeMode = "custom") :
    filterDataFiat raw st = some raw := by
  obtain ⟨ac, fi, tm, y, hc, ls⟩ := st
  dsimp only at htm
  subst htm
  rfl

/-- Witness for C10 at a concrete input. -/
theorem filterDataFiat_no_custom_witness :
    filterDataFiat [⟨0, 1⟩] ⟨"fiat", "usd", "custom", some 2020, some "2009_2012", true⟩
      = some [⟨0, 1⟩] :=
  filterDataFiat_no_custom [⟨0, 1⟩] _ rfl

/-! ### RouteTable / ViewRouter

The router model. Assumptions made explicit: the page contains a
`.tabButton` for every tab, the `showSubTab` function and a subtab
button for every subtab, and a `[data-subsubtab]` button for every
sub-subtab; tab, subtab and sub-subtab buttons are distinct elements
none of which is nested inside another kind, so a synthetic `.click()`
reaches exactly the document-level click handler of its own kind.
`Object.entries(ROUTES)` enumerates the keys in insertion order (no key
is integer-like). -/

/-- A value of the `ROUTES` object: `none` stands for an absent key or
an explicit `null`. -/
structure RouteEntry where
  tab : String
  subtab : Option String
  subsubtab : Option String
deriving DecidableEq, Repr

/-- The `ROUTES` table of router.js, in source (insertion) order. -/
def ROUTES : List (String × RouteEntry) :=
  [ ("", ⟨"home", none, none⟩),
    ("revolution/history", ⟨"revolution", some "REVOLUTION_HISTORY", none⟩),
    ("revolution/pioneers", ⟨"revolution", some "REVOLUTION_PIONEERS", none⟩),
    ("revolution/whitepaper", ⟨"revolution", some "REVOLUTION_WHITEPAPER", none⟩),
    ("network/structure", ⟨"network", some "NETWORK_STRUCTURE", none⟩),
    ("network/technology", ⟨"network", some "NETWORK_TECHNOLOGY", none⟩),
    ("network/nodes", ⟨"network", some "NETWORK_NODES", none⟩),
    ("network/miners", ⟨"network", some "NETWORK_MINER", none⟩),
    ("metrics/price", ⟨"metrics", some "METRICS_BTC_USD_EUR", none⟩),
    ("metrics/difficulty", ⟨"metrics", some "METRICS_BTC_DIFFICULTY", none⟩),
    ("metrics/difficulty/1y",
      ⟨"metrics", some "METRICS_BTC_DIFFICULTY", some "METRICS_BTC_DIFFICULTY_1Y"⟩),
    ("metrics/difficulty/5y",
      ⟨"metrics", some "METRICS_BTC_DIFFICULTY", some "METRICS_BTC_DIFFICULTY_5Y"⟩),
    ("metrics/difficulty/10y",
      ⟨"metrics", some "METRICS_BTC_DIFFICULTY", some "METRICS_BTC_DIFFICULTY_10Y"⟩),
    ("metrics/difficulty/ever",
      ⟨"metrics", some "METRICS_BTC_DIFFICULTY", some "METRICS_BTC_DIFFICULTY_EVER"⟩),
    ("metrics/tx-volume", ⟨"metrics", some "METRICS_BTC_TX_VOLUME", none⟩),
    ("metrics/tx-volume/1h",
      ⟨"metrics", some "METRICS_BTC_TX_VOLUME", some "METRICS_BTC_TX_VOLUME_1H"⟩),
    ("metrics/tx-volume/24h",
      ⟨"metrics", some "METRICS_BTC_TX_VOLUME", some "METRICS_BTC_TX_VOLUME_24H"⟩),
    ("metrics/tx-volume/1w",
      ⟨"metrics", some "METRICS_BTC_TX_VOLUME", some "METRICS_BTC_TX_VOLUME_1W"⟩),
    ("metrics/tx-volume/1m",
      ⟨"metrics", some "METRICS_BTC_TX_VOLUME", some "METRICS_BTC_TX_VOLUME_1M"⟩),
    ("metrics/tx-volume/1y",
      ⟨"metrics", some "METRICS_BTC_TX_VOLUME", some "METRICS_BTC_TX_VOLUME_1J"⟩),
    ("metrics/tx-amount", ⟨"metrics", some "METRICS_BTC_TX_AMOUNT", none⟩),
    ("metrics/tx-amount/mempool",
      ⟨"metrics", some "METRICS_BTC_TX_AMOUNT", some "METRICS_BTC_TX_AMOUNT_NOW"⟩),
    ("metrics/tx-amount/24h",
      ⟨"metrics", some "METRICS_BTC_TX_AMOUNT", some "METRICS_BTC_TX_AMOUNT_24H"⟩),
    ("metrics/tx-amount/1w",
      ⟨"metrics", some "METRICS_BTC_TX_AMOUNT", some "METRICS_BTC_TX_AMOUNT_1W"⟩),
    ("metrics/tx-amount/1m",
      ⟨"metrics", some "METRICS_BTC_TX_AMOUNT", some "METRICS_BTC_TX_AMOUNT_1M"⟩),
    ("metrics/tx-amount/1y",
      ⟨"metrics", some "METRICS_BTC_TX_AMOUNT", some "METRICS_BTC_TX_AMOUNT_1Y"⟩),
    ("metrics/tx-amount/halving",
      ⟨"metrics", some "METRICS_BTC_TX_AMOUNT", some "METRICS_BTC_TX_AMOUNT_HALVING"⟩),
    ("metrics/tx-amount/ever",
      ⟨"metrics", some "METRICS_BTC_TX_AMOUNT", some "METRICS_BTC_TX_AMOUNT_EVER"⟩),
    ("metrics/tx-fees", ⟨"metrics", some "METRICS_BTC_TX_FEES", none⟩),
    ("metrics/tx-fees/24h",
      ⟨"metrics", some "METRICS_BTC_TX_FEES", some "METRICS_BTC_TX_FEES_24H"⟩),
    ("metrics/tx-fees/1w",
      ⟨"metrics", some "METRICS_BTC_TX_FEES", some "METRICS_BTC_TX_FEES_1W"⟩),
    ("metrics/tx-fees/1m",
      ⟨"metrics", some "METRICS_BTC_TX_FEES", some "METRICS_BTC_TX_FEES_1M"⟩),
    ("metrics/tx-fees/1y",
      ⟨"metrics", some "METRICS_BTC_TX_FEES", some "METRICS_BTC_TX_FEES_1J"⟩),
    ("metrics/hashrate", ⟨"metrics", some "METRICS_BTC_HASHRATE", none⟩),
    ("metrics/hashrate/1y",
      ⟨"metrics", some "METRICS_BTC_HASHRATE", some "METRICS_BTC_HASHRATE_1Y"⟩),
    ("metrics/hashrate/5y",
      ⟨"metrics", some "METRICS_BTC_HASHRATE", some "METRICS_BTC_HASHRATE_5Y"⟩),
    ("metrics/hashrate/10y",
      ⟨"metrics", some "METRICS_BTC_HASHRATE", some "METRICS_BTC_HASHRATE_10Y"⟩),
    ("metrics/hashrate/ever",
      ⟨"metrics", some "METRICS_BTC_HASHRATE", some "METRICS_BTC_HASHRATE_EVER"⟩),
    ("review/btc-fiat", ⟨"review", some "REVIEW_BTC_VS_FIAT", none⟩),
    ("review/btc-gold", ⟨"review", some "REVIEW_BTC_VS_GOLD", none⟩),
    ("review/btc-silver", ⟨"review", some "REVIEW_BTC_VS_SILVER", none⟩),
    ("review/tx-volume", ⟨"review", some "REVIEW_BTC_TX_VOLUME", none⟩),
    ("review/tx-amount", ⟨"review", some "REVIEW_BTC_TX_AMOUNT", none⟩),
    ("review/tx-fees", ⟨"review", some "REVIEW_BTC_TX_FEES", none⟩),
    ("explorer/transaction", ⟨"explorer", some "EXPLORER_TXID", none⟩),
    ("explorer/address", ⟨"explorer", some "EXPLORER_ADDRESS", none⟩),
    ("explorer/wallet", ⟨"explorer", some "EXPLORER_WALLET", none⟩),
    ("treasuries/companies", ⟨"treasuries", some "TREASURIES_COMPANIES", none⟩),
    ("treasuries/institutions", ⟨"treasuries", some "TREASURIES_INSTITUTIONS", none⟩),
    ("treasuries/countries", ⟨"treasuries", some "TREASURIES_COUNTRIES", none⟩),
    ("market-cap/crypto", ⟨"market_cap", some "MARKET_CAP_COINS", none⟩),
    ("market-cap/companies", ⟨"market_cap", some "MARKET_CAP_COMPANIES", none⟩),
    ("market-cap/currencies", ⟨"market_cap", some "MARKET_CAP_CURRENCIES", none⟩),
    ("market-cap/commodities", ⟨"market_cap", some "MARKET_CAP_COMMODITIES", none⟩),
    ("indicators/pi-cycle-top", ⟨"indicators", some "INDICATORS_PI_CYCLE_TOP", none⟩),
    ("indicators/golden-ratio", ⟨"indicators", some "INDICATORS_GOLDEN_RATIO", none⟩),
    ("indicators/rainbow", ⟨"indicators", some "INDICATORS_RAINBOW_CHART", none⟩),
    ("indicators/mayer-multiple", ⟨"indicators", some "INDICATORS_MAYER_MULTIPLE", none⟩),
    ("indicators/stock-to-flow", ⟨"indicators", some "INDICATORS_STOCK_TO_FLOW", none⟩),
    ("indicators/btc-vs-m2", ⟨"indicators", some "INDICATORS_BTC_M2", none⟩),
    ("indicators/sp500-vs-btc", ⟨"indicators", some "INDICATORS_S&P500_BTC", none⟩),
    ("info/status", ⟨"info", some "INFO_STATUS", none⟩),
    ("info/traffic", ⟨"info", some "INFO_DASHBOARD_TRAFFIC", none⟩),
    ("info/imprint", ⟨"info", some "INFO_IMPRESSUM", none⟩) ]

/-- Embedding of `path.replace(/^\/|\/$/g, "")`: without the multiline flag the
regex strips at most one leading and one trailing slash. Written on the
character list of the string. -/
def cleanPath (s : String) : String :=
  let cs := s.data
  let cs := if cs.head? = some '/' then cs.tail else cs
  let cs := if cs.getLast? = some '/' then cs.dropLast else cs
  String.mk cs

/-- Lookup `ROUTES[cleanPath]`: the table lookup at the start of `routeTo`. -/
def findRoute (p : String) : Option RouteEntry :=
  (ROUTES.find? (fun pe => pe.1 == p)).map (fun pe => pe.2)

/-- The main-tab click handler's reverse lookup:
`Object.entries(ROUTES).find(([_, r]) => r.tab === tab)`. -/
def revByTab (tab : String) : Option String :=
  (ROUTES.find? (fun pe => pe.2.tab == tab)).map (fun pe => pe.1)

/-- The subtab click handler's reverse lookup (`r.subtab === subtab`;
`null`/absent never equals a string). -/
def revBySubtab (subtab : String) : Option String :=
  (ROUTES.find? (fun pe => pe.2.subtab == some subtab)).map (fun pe => pe.1)

/-- The sub-subtab click handler's reverse lookup
(`r.subsubtab === subsubtab`). -/
def revBySubsub (subsubtab : String) : Option String :=
  (ROUTES.find? (fun pe => pe.2.subsubtab == some subsubtab)).map (fun pe => pe.1)

/-- The first entry of `ROUTES` whose whole (tab, subtab, subsubtab)
triple matches — the reverse lookup of C9's round-trip property. -/
def revLookupTriple (e : RouteEntry) : Option (String × RouteEntry) :=
  ROUTES.find? (fun pe =>
    pe.2.tab == e.tab && pe.2.subtab == e.subtab && pe.2.subsubtab == e.subsubtab)

/-- The process-wide router state: `window.__ROUTER_ACTIVE__` and the
browser history, as the list of paths pushed by `history.pushState`. -/
structure RouterState where
  routerActive : Bool
  history : List String
deriving DecidableEq, Repr

/-- Effect of `history.pushState({path}, "", "/" + path)`. -/
def pushPath (s : RouterState) (p : String) : RouterState :=
  { s with history := s.history ++ [p] }

/-- The document-level `.tabButton` click handler: it reverse-looks-up
the tab and pushes, with no check of the re-entrancy flag. -/
def tabClickHandler (tab : String) (s : RouterState) : RouterState :=
  match revByTab tab with
  | some p => pushPath s p
  | none => s

/-- The document-level `.subTabButton` click handler: reverse lookup by
subtab and push, also with no flag check. -/
def subTabClickHandler (subtab : String) (s : RouterState) : RouterState :=
  match revBySubtab subtab with
  | some p => pushPath s p
  | none => s

/-- The document-level `[data-subsubtab]` click handler: it returns
early while `__ROUTER_ACTIVE__` is set, otherwise reverse lookup by
sub-subtab and push. -/
def subsubClickHandler (subsubtab : String) (s : RouterState) : RouterState :=
  if s.routerActive then s
  else
    match revBySubsub subsubtab with
    | some p => pushPath s p
    | none => s

/-- Function `routeTo(path)` in execution order: resolve the route (silent no-op
when absent), set the flag, synchronously `mainBtn.click()` (which runs
the tab click handler), clear the flag immediately when no sub-subtab
is scheduled; then the 60 ms timer calls `showSubTab(subBtn)` directly
(a plain function call — no click event, so no handler runs); then the
140 ms timer clicks the sub-subtab button (running its handler, which
sees the still-set flag) and clears the flag. -/
def routeTo (s : RouterState) (path : String) : RouterState :=
  match findRoute (cleanPath path) with
  | none => s
  | some r =>
    let s := { s with routerActive := true }
    let s := tabClickHandler r.tab s
    let s := if r.subsubtab.isNone then { s with routerActive := false } else s
    match r.subsubtab with
    | some ss =>
        let s := subsubClickHandler ss s
        { s with routerActive := false }
    | none => s

/-- C1 counterexample: applying `"metrics/tx-amount/24h"` from an idle
state does push history — the synthetic main-tab click is not
suppressed — so path application is not push-free. -/
theorem routeTo_pushes_on_apply :
    (routeTo ⟨false, []⟩ "metrics/tx-amount/24h").history = ["metrics/price"] ∧
    (routeTo ⟨false, []⟩ "metrics/tx-amount/24h").history ≠ [] := by
  refine ⟨?_, ?_⟩ <;> decide

/-- C1 amended: applying a RouteTable path performs exactly one history
push — the tab click handler, which does not consult the re-entrancy
flag, reverse-looks-up the activated tab and pushes the first path with
that tab — while the sub-subtab synthetic click is suppressed by the
flag, the subtab activation (a direct `showSubTab` call) pushes
nothing, and the flag is clear again afterwards. -/
theorem routeTo_single_tab_push (s : RouterState) (path : String)
    (r : RouteEntry) (hfind : findRoute (cleanPath path) = some r) :
    (routeTo s path).history = s.history ++ (revByTab r.tab).toList ∧
    (revByTab r.tab).isSome = true ∧
    (routeTo s path).routerActive = false := by
  have hsome : (revByTab r.tab).isSome = true := by
    obtain ⟨pe, hmem, hpe2⟩ : ∃ pe ∈ ROUTES, pe.2 = r := by
      unfold findRoute at hfind
      cases hf : ROUTES.find? (fun pe => pe.1 == cleanPath path) with
      | none => rw [hf] at hfind; exact absurd hfind (by simp)
      | some pe =>
        rw [hf] at hfind
        exact ⟨pe, List.mem_of_find?_eq_some hf, by simpa using hfind⟩
    have hfs : (ROUTES.find? (fun pe => pe.2.tab == r.tab)).isSome := by
      rw [List.find?_isSome]
      exact ⟨pe, hmem, by rw [← hpe2]; exact beq_self_eq_true _⟩
    unfold revByTab
    cases hf2 : ROUTES.find? (fun pe => pe.2.tab == r.tab) with
    | none => rw [hf2] at hfs; exact absurd hfs (by simp)
    | some q => rfl
  refine ⟨?_, hsome, ?_⟩
  · unfold routeTo
    rw [hfind]
    obtain ⟨p, hp⟩ := Option.isSome_iff_exists.mp hsome
    cases hss : r.subsubtab with
    | none =>
        simp [tabClickHandler, hp, pushPath, hss]
    | some ss =>
        simp [tabClickHandler, hp, pushPath, hss, subsubClickHandler]
  · unfold routeTo
    rw [hfind]
    cases hss : r.subsubtab with
    | none => simp [tabClickHandler, hss]
    | some ss => simp [hss]

/-- Witness for C1's amended theorem at the path of spec §8. -/
theorem routeTo_single_tab_push_witness :
    (routeTo ⟨false, []⟩ "metrics/tx-amount/24h").history
        = [] ++ (revByTab "metrics").toList ∧
    (revByTab "metrics").isSome = true ∧
    (routeTo ⟨false, []⟩ "metrics/tx-amount/24h").routerActive = false :=
  routeTo_single_tab_push ⟨false, []⟩ "metrics/tx-amount/24h"
    ⟨"metrics", some "METRICS_BTC_TX_AMOUNT", some "METRICS_BTC_TX_AMOUNT_24H"⟩
    (by decide)

/-- C9: for every entry of the route table, the first entry whose whole
(tab, subtab, subsubtab) triple matches it carries an entry deep-equal
to the original — the table is effectively injective on triples, so the
reverse lookup round-trips. -/
theorem routes_roundTrip :
    ∀ pe ∈ ROUTES, (revLookupTriple pe.2).map (fun q => q.2) = some pe.2 := by
  decide

/-- Witness for C9 at a concrete table entry. -/
theorem routes_roundTrip_witness :
    (revLookupTriple ⟨"revolution", some "REVOLUTION_HISTORY", none⟩).map
        (fun q => q.2)
      = some ⟨"revolution", some "REVOLUTION_HISTORY", none⟩ :=
  routes_roundTrip ("revolution/history", ⟨"revolution", some "REVOLUTION_HISTORY", none⟩)
    (by decide)

end BitcoinDashboard
